import Mathlib

/-!
Verification of the dome-sdk-ts wallet-linking and signing core.

The TypeScript source is shallowly embedded: every network call (Polymarket
CLOB, Privy, relayer, Dome server, JSON-RPC provider) is represented by its
outcome, passed in as an explicit argument, and every fallible routine
returns `Except String` mirroring thrown `Error` messages.  Definitions
follow `src/router/polymarket.ts` (PolymarketRouter), `src/escrow/approve.ts`
(checkAllowances / approveEscrow) and `src/escrow/ctf.ts`
(buildRedeemPositionsTx) statement by statement.
-/

namespace DomeSDK

/-- Credentials as returned by the CLOB client's `deriveApiKey` / `createApiKey`. -/
structure ApiKeyCreds where
  key : String
  secret : String
  passphrase : String
deriving Repr, DecidableEq

/-- `PolymarketCredentials` from `types.ts`: the shape stored in the router's
`userCredentials` map and returned to callers. -/
structure PolymarketCredentials where
  apiKey : String
  apiSecret : String
  apiPassphrase : String
deriving Repr, DecidableEq

/-- The completeness test inside `deriveOrCreateApiCredentials`:
`!apiKeyCreds.key || !apiKeyCreds.secret || !apiKeyCreds.passphrase` — a field
is falsy exactly when it is the empty string. -/
def validCreds (c : ApiKeyCreds) : Bool :=
  !(c.key == "") && !(c.secret == "") && !(c.passphrase == "")

/-- The `catch (deriveError)` body of `deriveOrCreateApiCredentials`: attempt
`createApiKey`; its result is returned as-is, and on failure the single
surfaced error names the creation failure. -/
def createPhase (createRes : Except String ApiKeyCreds) :
    Except String ApiKeyCreds × Bool :=
  match createRes with
  | .ok c => (.ok c, true)
  | .error e => (.error ("Failed to obtain Polymarket API credentials: " ++ e), true)

/-- `PolymarketRouter.deriveOrCreateApiCredentials`.  `deriveRes` / `createRes`
are the outcomes of the two CLOB network calls (a `.error` is a rejected
promise).  The second component records whether `createApiKey` was invoked.
A derive result that is missing a field throws inside the `try`, which lands
in the same `catch` as a derive rejection. -/
def deriveOrCreateApiCredentials (deriveRes : Except String ApiKeyCreds)
    (createRes : Except String ApiKeyCreds) :
    Except String ApiKeyCreds × Bool :=
  match deriveRes with
  | .ok c =>
      if validCreds c then (.ok c, false)
      else createPhase createRes
  | .error _ => createPhase createRes

/-- Phase 1 of the credential protocol failed: the derive call rejected, or it
returned an incomplete credentials object. -/
def derivePhaseFailed (d : Except String ApiKeyCreds) : Prop :=
  match d with
  | .error _ => True
  | .ok c => validCreds c = false

instance (d : Except String ApiKeyCreds) : Decidable (derivePhaseFailed d) := by
  unfold derivePhaseFailed
  cases d <;> infer_instance

/-- Conversion performed by both link paths before storing:
`{ apiKey: creds.key, apiSecret: creds.secret, apiPassphrase: creds.passphrase }`. -/
def credsOf (c : ApiKeyCreds) : PolymarketCredentials :=
  ⟨c.key, c.secret, c.passphrase⟩

/-- `PolymarketRouter.linkUserWithEoa`, restricted to its credential steps
(the allowance block only logs / sets allowances and does not affect the
stored or returned credentials).  The in-memory `userCredentials` map is an
association list updated by prepending, lookups taking the first hit. -/
def linkUserWithEoa (userId : String)
    (store : List (String × PolymarketCredentials))
    (deriveRes createRes : Except String ApiKeyCreds) :
    Except String (PolymarketCredentials × List (String × PolymarketCredentials)) :=
  match (deriveOrCreateApiCredentials deriveRes createRes).1 with
  | .error e => .error e
  | .ok c =>
      let credentials := credsOf c
      .ok (credentials, (userId, credentials) :: store)

/-- `SafeLinkResult` from `types.ts`. -/
structure SafeLinkResult where
  credentials : PolymarketCredentials
  safeAddress : String
  signerAddress : String
  safeDeployed : Bool
  allowancesSet : Nat
deriving Repr, DecidableEq

/-- Modelled from the spec: `deriveSafeAddress` lives in `utils/safe.ts`, which is
not under src; the spec says the smart-account address is deterministically
derived from the signer's address and the chain id (same inputs, same address,
independent of deployment). -/
def deriveSafeAddress (eoaAddress : String) (chainId : Nat) : String :=
  "safe(" ++ eoaAddress ++ "," ++ toString chainId ++ ")"

/-- Outcomes of the external calls made by `linkUserWithSafe`:
`isSafeDeployed` at entry, `checkSafeAllowances(...).allSet`, and the two
credential calls.  `deploySafe` / `setSafeUsdcApproval` failures would
propagate as exceptions; runs reaching the return value have them succeed. -/
structure SafeWorld where
  alreadyDeployed : Bool
  allowancesAllSet : Bool
  deriveRes : Except String ApiKeyCreds
  createRes : Except String ApiKeyCreds

/-- Parameters of `linkUserWithSafe` (defaults as in the source). -/
structure LinkSafeParams where
  userId : String
  eoaAddress : String
  autoDeploySafe : Bool := true
  autoSetAllowances : Bool := true

/-- Steps 4–5 of `linkUserWithSafe`, entered with the value the local mutable
`safeDeployed` holds once step 3 has finished without throwing. -/
def linkUserWithSafeRest (safeAddress : String) (safeDeployed : Bool)
    (p : LinkSafeParams) (w : SafeWorld) : Except String SafeLinkResult :=
  let allowancesSet : Nat :=
    if p.autoSetAllowances && !w.allowancesAllSet then 3 else 0
  match (deriveOrCreateApiCredentials w.deriveRes w.createRes).1 with
  | .error e => .error e
  | .ok c =>
      .ok { credentials := credsOf c
            safeAddress := safeAddress
            signerAddress := p.eoaAddress
            -- source line: `safeDeployed: !safeDeployed, // true if we deployed it during this call`
            safeDeployed := !safeDeployed
            allowancesSet := allowancesSet }

/-- `PolymarketRouter.linkUserWithSafe`.  Step 2 reads `w.alreadyDeployed` into
the local `safeDeployed`; step 3 either deploys (and reassigns it to `true`),
throws when deployment is needed but not authorized, or leaves it as the
(true) pre-existing value. -/
def linkUserWithSafe (chainId : Nat) (p : LinkSafeParams) (w : SafeWorld) :
    Except String SafeLinkResult :=
  let safeAddress := deriveSafeAddress p.eoaAddress chainId
  if !w.alreadyDeployed && p.autoDeploySafe then
    linkUserWithSafeRest safeAddress true p w
  else if !w.alreadyDeployed then
    .error ("Safe not deployed at " ++ safeAddress ++
      ". Set autoDeploySafe: true to deploy automatically.")
  else
    linkUserWithSafeRest safeAddress w.alreadyDeployed p w

/-- Wallet type of `ClaimWinningsParams` (`'eoa' | 'privy'`). -/
inductive ClaimWalletType
  | eoa
  | privy
deriving Repr, DecidableEq

/-- `ClaimWinningsParams` from `types.ts`.  The performance-fee authorization
is forwarded opaquely; it is modelled by its serialized form. -/
structure ClaimWinningsParams where
  positionId : String
  walletType : ClaimWalletType
  payerAddress : String
  signerAddress : String
  performanceFeeAuth : String
  signedRedeemTx : Option String := none
  privyWalletId : Option String := none
  conditionId : Option String := none
  outcomeIndex : Option Nat := none
  affiliate : Option String := none
deriving Repr, DecidableEq

/-- `ServerClaimWinningsRequest` from `types.ts`: optional fields are present
exactly when supplied (the `...(x !== undefined && \x7b x \x7d)` spreads). -/
structure ServerClaimWinningsRequest where
  positionId : String
  walletType : ClaimWalletType
  payerAddress : String
  signerAddress : String
  performanceFeeAuth : String
  signedRedeemTx : Option String
  privyWalletId : Option String
  conditionId : Option String
  outcomeIndex : Option Nat
  affiliate : Option String
deriving Repr, DecidableEq

/-- The request body `claimWinnings` builds from its parameters. -/
def mkClaimWinningsRequest (p : ClaimWinningsParams) : ServerClaimWinningsRequest :=
  { positionId := p.positionId
    walletType := p.walletType
    payerAddress := p.payerAddress
    signerAddress := p.signerAddress
    performanceFeeAuth := p.performanceFeeAuth
    signedRedeemTx := p.signedRedeemTx
    privyWalletId := p.privyWalletId
    conditionId := p.conditionId
    outcomeIndex := p.outcomeIndex
    affiliate := p.affiliate }

/-- The pre-network phase of `PolymarketRouter.claimWinnings`: everything it
does before `fetch`.  The only check is that the Dome API key is configured;
the request is then built and submitted. -/
def claimWinningsRequest (apiKey : Option String) (p : ClaimWinningsParams) :
    Except String ServerClaimWinningsRequest :=
  match apiKey with
  | none => .error "Dome API key required for claimWinnings"
  | some _ => .ok (mkClaimWinningsRequest p)

/-- Per-spender result of `checkAllowances` in `escrow/approve.ts`. -/
structure AllowanceStatus where
  hasAllowance : Bool
  allowance : Nat
deriving Repr, DecidableEq

/-- `BigInt(1e12)`: the fixed "effectively unlimited" threshold. -/
def UNLIMITED_THRESHOLD : Nat := 10 ^ 12

/-- `checkAllowances` from `escrow/approve.ts`, with the on-chain `allowance`
read for each contract supplied alongside its name.  The source computes
`hasAllowance = allowanceBigInt > BigInt(1e12)`. -/
def checkAllowances (contracts : List (String × Nat)) :
    List (String × AllowanceStatus) :=
  contracts.map fun na =>
    (na.1, { hasAllowance := decide (UNLIMITED_THRESHOLD < na.2)
             allowance := na.2 })

/-- One contract processed by `approveEscrow`, together with the outcomes of
the external calls made for it: the on-chain allowance read, the tx hash Privy
returns when an approval is sent, and `receipt.status` from
`waitForTransaction`. -/
structure EscrowContractEntry where
  name : String
  allowance : Nat
  txHash : String
  receiptStatus : Nat
deriving Repr, DecidableEq

/-- The allowance test `approveEscrow` applies to each contract (via
`checkAllowances`). -/
def entryHasAllowance (e : EscrowContractEntry) : Bool :=
  decide (UNLIMITED_THRESHOLD < e.allowance)

/-- The classification loop of `approveEscrow`: a single in-order pass pushing
each contract either onto `needsApproval` or onto `alreadyApproved`. -/
def splitApproval : List EscrowContractEntry → List EscrowContractEntry × List String
  | [] => ([], [])
  | e :: rest =>
      let p := splitApproval rest
      if entryHasAllowance e then (p.1, e.name :: p.2)
      else (e :: p.1, p.2)

/-- `ApproveEscrowResult` from `escrow/approve.ts`; `txHashes` as an
association list. -/
structure ApproveEscrowResult where
  approved : List String
  alreadyApproved : List String
  txHashes : List (String × String)
deriving Repr, DecidableEq

/-- The transaction loop of `approveEscrow`: for each contract needing
approval, the approval tx is sent (recorded in the second component), its hash
recorded, then its receipt awaited; a receipt status other than 1 throws
immediately.  Returns (result-or-error, transactions actually sent). -/
def approvalLoop : List EscrowContractEntry →
    Except String (List String × List (String × String)) × List (String × String)
  | [] => (.ok ([], []), [])
  | e :: rest =>
      if e.receiptStatus != 1 then
        (.error ("Approval transaction failed for " ++ e.name ++ ": " ++ e.txHash),
         [(e.name, e.txHash)])
      else
        match approvalLoop rest with
        | (.ok (names, hashes), sent) =>
            (.ok (e.name :: names, (e.name, e.txHash) :: hashes),
             (e.name, e.txHash) :: sent)
        | (.error m, sent) => (.error m, (e.name, e.txHash) :: sent)

/-- `approveEscrow` from `escrow/approve.ts` over the selected contract set,
also reporting which approval transactions were sent on-chain. -/
def approveEscrow (entries : List EscrowContractEntry) :
    Except String ApproveEscrowResult × List (String × String) :=
  let needs := (splitApproval entries).1
  let already := (splitApproval entries).2
  if needs.isEmpty then (.ok ⟨[], already, []⟩, [])
  else
    match approvalLoop needs with
    | (.ok (approved, hashes), sent) => (.ok ⟨approved, already, hashes⟩, sent)
    | (.error m, sent) => (.error m, sent)

/-- `WalletType` from `types.ts` (`'eoa' | 'safe'`). -/
inductive WalletType
  | eoa
  | safe
deriving Repr, DecidableEq

/-- The signature-type / funder selection in `placeOrder`
(`src/router/polymarket.ts`): for `'safe'`, `funder = funderAddress ||
userSafeAddresses.get(userId) || signerAddress` followed by a throw when both
`funderAddress` and the stored Safe address are absent; for `'eoa'`,
`signatureType = 0` and `funder = signerAddress`.  The chosen pair is passed
to the CLOB client, whose constructor contract stamps it into the signed
order's `signatureType` and maker/funder fields. -/
def orderSigningParams (walletType : WalletType) (funderAddress : Option String)
    (storedSafeAddress : Option String) (signerAddress : String) :
    Except String (Nat × String) :=
  match walletType with
  | .safe =>
      match funderAddress, storedSafeAddress with
      | none, none =>
          .error ("funderAddress is required for Safe wallet orders. " ++
            "Pass it explicitly or ensure linkUser was called with walletType: \"safe\".")
      | some f, _ => .ok (2, f)
      | none, some s => .ok (2, s)
  | .eoa => .ok (0, signerAddress)

/-- The `status` field of a server place-order result: the backend returns
either one of the string statuses (`LIVE` / `MATCHED` / `DELAYED`) or echoes
an upstream numeric HTTP status. -/
inductive ResultStatusField
  | num (n : Nat)
  | str (s : String)
deriving Repr, DecidableEq

/-- The fields of `serverResponse.result` that `placeOrder` inspects. -/
structure PlaceOrderResult where
  status : ResultStatusField
  errorMessage : Option String := none
  errorField : Option String := none
deriving Repr, DecidableEq

/-- `ServerPlaceOrderError` from `types.ts` (`data?.reason` flattened). -/
structure ServerError where
  code : Int
  message : String
  reason : Option String := none
deriving Repr, DecidableEq

/-- The server response envelope for `placeOrder`. -/
structure ServerPlaceOrderResponse where
  result : Option PlaceOrderResult := none
  error : Option ServerError := none
deriving Repr, DecidableEq

/-- The message picked for a numeric-status rejection:
`result.errorMessage || result.error || "Polymarket returned HTTP " + status`. -/
def placeOrderRejectMessage (r : PlaceOrderResult) (n : Nat) : String :=
  match r.errorMessage with
  | some m => m
  | none =>
      match r.errorField with
      | some m => m
      | none => "Polymarket returned HTTP " ++ toString n

/-- The response-handling tail of `placeOrder` on a 2xx transport result:
envelope `error` first, then the empty-result check, then the mandatory
numeric-status double-check (`typeof result.status === 'number' &&
result.status >= 400`). -/
def handlePlaceOrderResponse (resp : ServerPlaceOrderResponse) :
    Except String PlaceOrderResult :=
  match resp.error with
  | some e =>
      let reason := match e.reason with
        | some rsn => rsn
        | none => e.message
      .error ("Order placement failed: " ++ reason ++
        " (code: " ++ toString e.code ++ ")")
  | none =>
      match resp.result with
      | none => .error "Server returned empty result"
      | some r =>
          match r.status with
          | .num n =>
              if 400 ≤ n then
                .error ("Order rejected by Polymarket: " ++ placeOrderRejectMessage r n)
              else .ok r
          | .str _ => .ok r

/-- Modelled from the spec: `POLYGON_ADDRESSES` lives in `utils/allowances.ts`,
which is not under src; only the identity of the USDC collateral address
matters here. -/
def POLYGON_USDC_ADDRESS : String := "0x2791Bca1f2de4661ED88A30C99A7a9449Aa84174"

/-- Modelled from the spec: `CTF_CONTRACT_ADDRESS = POLYGON_ADDRESSES.CTF`
(`utils/allowances.ts` is not under src); only its identity matters here. -/
def CTF_CONTRACT_ADDRESS : String := "0x4D97DCd97eC945f40cF65F87097ACe5EA0476045"

/-- Interpret a natural number as a 32-bit two's-complement integer. -/
def toInt32 (n : Nat) : Int :=
  if n % 2 ^ 32 < 2 ^ 31 then ((n % 2 ^ 32 : Nat) : Int)
  else ((n % 2 ^ 32 : Nat) : Int) - 2 ^ 32

/-- JavaScript `1 << k` for a non-negative integer `k`: the shift count is
taken mod 32 and the result is a signed 32-bit integer. -/
def jsShlOne (k : Nat) : Int := toInt32 (2 ^ (k % 32))

/-- `BuildRedeemTxParams` from `escrow/ctf.ts` (`outcomeIndex` documented as
the winning outcome index, 0 or 1). -/
structure BuildRedeemTxParams where
  conditionId : String
  outcomeIndex : Nat
deriving Repr, DecidableEq

/-- The `redeemPositions` call data in symbolic form: `encodeFunctionData` is
external (ethers), so the embedding records exactly the function arguments it
is asked to encode. -/
structure RedeemPositionsCalldata where
  collateralToken : String
  parentCollectionId : Nat
  conditionId : String
  indexSets : List Int
deriving Repr, DecidableEq

/-- `buildRedeemPositionsCalldata` from `escrow/ctf.ts`:
`redeemPositions(USDC, HashZero, conditionId, [1 << outcomeIndex])`. -/
def buildRedeemPositionsCalldata (p : BuildRedeemTxParams) : RedeemPositionsCalldata :=
  { collateralToken := POLYGON_USDC_ADDRESS
    parentCollectionId := 0
    conditionId := p.conditionId
    indexSets := [jsShlOne p.outcomeIndex] }

/-- The unsigned transaction object returned by `buildRedeemPositionsTx`
(field `toAddr` embeds the source's `to`, a reserved word in Lean). -/
structure RedeemTx where
  toAddr : String
  data : RedeemPositionsCalldata
  value : Nat
deriving Repr, DecidableEq

/-- `buildRedeemPositionsTx` from `escrow/ctf.ts`. -/
def buildRedeemPositionsTx (p : BuildRedeemTxParams) : RedeemTx :=
  { toAddr := CTF_CONTRACT_ADDRESS
    data := buildRedeemPositionsCalldata p
    value := 0 }

/-!  Theorems.  -/

/-- C5: if the derive phase fails (a rejected call, or incomplete returned
credentials) and the create phase also fails, `deriveOrCreateApiCredentials`
raises a single error naming the creation failure — the derivation error is
never the one surfaced. -/
theorem claim_C5_create_error_surfaced (d : Except String ApiKeyCreds)
    (cErr : String) (h : derivePhaseFailed d) :
    (deriveOrCreateApiCredentials d (.error cErr)).1 =
      .error ("Failed to obtain Polymarket API credentials: " ++ cErr) := by
  cases d with
  | error e => simp [deriveOrCreateApiCredentials, createPhase]
  | ok c =>
      simp only [derivePhaseFailed] at h
      simp [deriveOrCreateApiCredentials, createPhase, h]

/-- Witness for C5 at concrete derive/create failures. -/
theorem claim_C5_witness :
    (deriveOrCreateApiCredentials (.error "derive: 401 Unauthorized")
        (.error "create: 500 Server Error")).1 =
      .error ("Failed to obtain Polymarket API credentials: " ++ "create: 500 Server Error") :=
  claim_C5_create_error_surfaced (.error "derive: 401 Unauthorized")
    "create: 500 Server Error" (by simp [derivePhaseFailed])

/-- C6: when `deriveApiKey` returns complete credentials,
`deriveOrCreateApiCredentials` returns exactly those credentials and never
invokes `createApiKey`; in particular two runs against the same derive result
agree regardless of what the create call would have produced — linking the
same signer twice yields the same credentials and creates no duplicates. -/
theorem claim_C6_derive_short_circuits (c : ApiKeyCreds) (h : validCreds c = true)
    (create1 create2 : Except String ApiKeyCreds) :
    deriveOrCreateApiCredentials (.ok c) create1 = (.ok c, false) ∧
      deriveOrCreateApiCredentials (.ok c) create2 =
        deriveOrCreateApiCredentials (.ok c) create1 := by
  constructor <;> simp [deriveOrCreateApiCredentials, h]

/-- Witness for C6 at concrete complete credentials. -/
theorem claim_C6_witness :
    deriveOrCreateApiCredentials (.ok ⟨"key-1", "secret-1", "pass-1"⟩)
        (.error "network down") = (.ok ⟨"key-1", "secret-1", "pass-1"⟩, false) ∧
      deriveOrCreateApiCredentials (.ok ⟨"key-1", "secret-1", "pass-1"⟩)
          (.ok ⟨"other", "other", "other"⟩) =
        deriveOrCreateApiCredentials (.ok ⟨"key-1", "secret-1", "pass-1"⟩)
          (.error "network down") :=
  claim_C6_derive_short_circuits ⟨"key-1", "secret-1", "pass-1"⟩ (by decide)
    (.error "network down") (.ok ⟨"other", "other", "other"⟩)

/-- C3 counterexample: with the derive call failing and `createApiKey`
resolving to an object whose three fields are all empty, `linkUserWithEoa`
returns those empty credentials and stores them in `userCredentials` — the
non-emptiness invariant is not enforced on the create path. -/
theorem claim_C3_counterexample :
    linkUserWithEoa "user-1" [] (.error "derive failed") (.ok ⟨"", "", ""⟩) =
      .ok (⟨"", "", ""⟩, [("user-1", ⟨"", "", ""⟩)]) := by
  rfl

/-- C3 amended: the all-fields-non-empty invariant is enforced on the derive
path only — credentials produced without invoking `createApiKey` are always
complete, while after a failed derive phase the create result is returned (and
hence stored) verbatim, with no field validation. -/
theorem claim_C3_derive_path_only_validated :
    (∀ (d cr : Except String ApiKeyCreds) (c : ApiKeyCreds),
        deriveOrCreateApiCredentials d cr = (.ok c, false) → validCreds c = true) ∧
      (∀ (d : Except String ApiKeyCreds) (c : ApiKeyCreds), derivePhaseFailed d →
        (deriveOrCreateApiCredentials d (.ok c)).1 = .ok c) := by
  constructor
  · intro d cr c h
    cases d with
    | error e => cases cr <;> simp [deriveOrCreateApiCredentials, createPhase] at h
    | ok c0 =>
        by_cases hv : validCreds c0 = true
        · simp only [deriveOrCreateApiCredentials, hv, if_pos] at h
          obtain ⟨h1, -⟩ := Prod.mk.injEq .. ▸ h
          obtain rfl := Except.ok.inj (by exact_mod_cast h1)
          exact hv
        · cases cr <;> simp [deriveOrCreateApiCredentials, createPhase, hv] at h
  · intro d c h
    cases d with
    | error e => simp [deriveOrCreateApiCredentials, createPhase]
    | ok c0 =>
        simp only [derivePhaseFailed] at h
        simp [deriveOrCreateApiCredentials, createPhase, h]

/-- Witness for C3's amended statement: a complete derive-path result
validates, and an incomplete create-path result is passed through unchanged. -/
theorem claim_C3_witness :
    validCreds ⟨"key-1", "secret-1", "pass-1"⟩ = true ∧
      (deriveOrCreateApiCredentials (.error "derive failed")
          (.ok ⟨"k2", "", "p2"⟩)).1 = .ok ⟨"k2", "", "p2"⟩ :=
  ⟨claim_C3_derive_path_only_validated.1 (.ok ⟨"key-1", "secret-1", "pass-1"⟩)
      (.error "unused") ⟨"key-1", "secret-1", "pass-1"⟩ rfl,
    claim_C3_derive_path_only_validated.2 (.error "derive failed")
      ⟨"k2", "", "p2"⟩ (by simp [derivePhaseFailed])⟩

/-- C1: evaluation at the failing input.  The Safe is NOT yet deployed and
autoDeploySafe is true, so deployment happens during this call; yet the
returned `safeDeployed` is `false`.  The local `safeDeployed` is reassigned to
`true` right after deploying, so the returned `!safeDeployed` — whose own
comment reads "true if we deployed it during this call" — is `false` on every
successful run, contradicting that comment and the claim. -/
theorem claim_C1_deployed_during_call_reported_false :
    linkUserWithSafe 137 ⟨"user-1", "0xeoa", true, true⟩
        ⟨false, false, .error "derive failed", .ok ⟨"key-1", "secret-1", "pass-1"⟩⟩ =
      .ok { credentials := ⟨"key-1", "secret-1", "pass-1"⟩
            safeAddress := deriveSafeAddress "0xeoa" 137
            signerAddress := "0xeoa"
            safeDeployed := false
            allowancesSet := 3 } := by
  rfl

/-- C2 counterexample: a call supplying BOTH `signedRedeemTx` and all three
Privy-delegation fields passes the pre-network phase of `claimWinnings` and
builds a server request, and so does a call supplying NEITHER — no rejection
happens before the network call in either case. -/
theorem claim_C2_counterexample :
    (claimWinningsRequest (some "dome-key")
        { positionId := "0xpos", walletType := .eoa, payerAddress := "0xpayer",
          signerAddress := "0xsigner", performanceFeeAuth := "perf-auth",
          signedRedeemTx := some "0xsignedtx", privyWalletId := some "wallet-id",
          conditionId := some "0xcond", outcomeIndex := some 1 }).isOk = true ∧
      (claimWinningsRequest (some "dome-key")
          { positionId := "0xpos", walletType := .privy, payerAddress := "0xpayer",
            signerAddress := "0xsigner", performanceFeeAuth := "perf-auth" }).isOk = true :=
  ⟨rfl, rfl⟩

/-- C2 amended: `claimWinnings` performs no claim-flow exclusivity check.  The
only pre-network rejection is a missing Dome API key; with the key configured,
every parameter combination — both flows, neither, or exactly one — is
forwarded verbatim in the server request, leaving exclusivity validation to
the server. -/
theorem claim_C2_no_exclusivity_check (k : String) (p : ClaimWinningsParams) :
    ∃ req, claimWinningsRequest (some k) p = .ok req ∧
      req.signedRedeemTx = p.signedRedeemTx ∧
      req.privyWalletId = p.privyWalletId ∧
      req.conditionId = p.conditionId ∧
      req.outcomeIndex = p.outcomeIndex :=
  ⟨mkClaimWinningsRequest p, rfl, rfl, rfl, rfl, rfl⟩

/-- C4 counterexample: an allowance exactly AT the 10^12 threshold is reported
as insufficient (`hasAllowance = false`), although the claim's "at or above"
reading requires it to be sufficient. -/
theorem claim_C4_counterexample :
    checkAllowances [("Fee Escrow", 10 ^ 12)] =
        [("Fee Escrow", { hasAllowance := false, allowance := 10 ^ 12 })] ∧
      UNLIMITED_THRESHOLD ≤ 10 ^ 12 := by
  constructor
  · rfl
  · exact le_refl _

/-- C4 amended: `checkAllowances` reports `hasAllowance = true` for a spender
exactly when the raw on-chain allowance is STRICTLY ABOVE the fixed unlimited
threshold 10^12 (`allowance > BigInt(1e12)`); a value at or below the
threshold is reported insufficient. -/
theorem claim_C4_threshold_strict (contracts : List (String × Nat)) (n : String)
    (s : AllowanceStatus) (h : (n, s) ∈ checkAllowances contracts) :
    s.hasAllowance = true ↔ UNLIMITED_THRESHOLD < s.allowance := by
  unfold checkAllowances at h
  obtain ⟨⟨nm, a⟩, hmem, heq⟩ := List.mem_map.1 h
  obtain ⟨rfl, rfl⟩ := Prod.mk.injEq .. ▸ heq
  simp

/-- Witness for C4's amended statement at a concrete allowance above the
threshold. -/
theorem claim_C4_witness :
    ({ hasAllowance := true, allowance := 2 * 10 ^ 12 } : AllowanceStatus).hasAllowance = true ↔
      UNLIMITED_THRESHOLD < ({ hasAllowance := true, allowance := 2 * 10 ^ 12 } : AllowanceStatus).allowance :=
  claim_C4_threshold_strict [("CTF Exchange", 2 * 10 ^ 12)] "CTF Exchange"
    { hasAllowance := true, allowance := 2 * 10 ^ 12 } (by decide)

/-- C7 counterexample: with walletType 'safe', a caller-supplied
`funderAddress` is used verbatim as the funder even when it differs from the
user's stored derived Safe address, so the funder in the produced order need
not be the derived Safe address. -/
theorem claim_C7_counterexample :
    orderSigningParams .safe (some "0xother-funder")
        (some (deriveSafeAddress "0xeoa" 137)) "0xeoa" = .ok (2, "0xother-funder") ∧
      "0xother-funder" ≠ deriveSafeAddress "0xeoa" 137 :=
  ⟨rfl, by decide⟩

/-- C7 amended: for walletType 'eoa' the produced order is signed with
signatureType 0 and funder = the signer's own address; for walletType 'safe'
it is signed with signatureType 2 and the funder is the caller-supplied
`funderAddress` when present, else the Safe address stored for the user by
`linkUser` (the derived Safe address), and `placeOrder` throws when neither is
available — it does not enforce that a supplied funderAddress equals the
derived Safe address. -/
theorem claim_C7_topology_params (funderAddress storedSafeAddress : Option String)
    (signerAddress : String) :
    orderSigningParams .eoa funderAddress storedSafeAddress signerAddress =
        .ok (0, signerAddress) ∧
      (∀ f, funderAddress = some f →
        orderSigningParams .safe funderAddress storedSafeAddress signerAddress =
          .ok (2, f)) ∧
      (∀ s, funderAddress = none → storedSafeAddress = some s →
        orderSigningParams .safe funderAddress storedSafeAddress signerAddress =
          .ok (2, s)) ∧
      (funderAddress = none → storedSafeAddress = none →
        orderSigningParams .safe funderAddress storedSafeAddress signerAddress =
          .error ("funderAddress is required for Safe wallet orders. " ++
            "Pass it explicitly or ensure linkUser was called with walletType: \"safe\".")) := by
  refine ⟨rfl, ?_, ?_, ?_⟩
  · rintro f rfl
    cases storedSafeAddress <;> rfl
  · rintro s rfl rfl
    rfl
  · rintro rfl rfl
    rfl

/-- Witness for C7's amended statement at concrete addresses. -/
theorem claim_C7_witness :
    orderSigningParams .eoa none none "0xsigner" = .ok (0, "0xsigner") ∧
      orderSigningParams .safe (some "0xsafe") none "0xsigner" = .ok (2, "0xsafe") :=
  ⟨(claim_C7_topology_params none none "0xsigner").1,
    (claim_C7_topology_params (some "0xsafe") none "0xsigner").2.1 "0xsafe" rfl⟩

/-- C8: a 2xx response with no envelope error whose success result carries a
numeric status ≥ 400 makes `placeOrder` raise an application-level rejection
("Order rejected by Polymarket: ...") instead of returning the result. -/
theorem claim_C8_numeric_status_rejected (resp : ServerPlaceOrderResponse)
    (r : PlaceOrderResult) (n : Nat) (he : resp.error = none)
    (hr : resp.result = some r) (hs : r.status = .num n) (hn : 400 ≤ n) :
    handlePlaceOrderResponse resp =
      .error ("Order rejected by Polymarket: " ++ placeOrderRejectMessage r n) := by
  unfold handlePlaceOrderResponse
  rw [he, hr]
  dsimp only
  rw [hs]
  simp [hn]

/-- Witness for C8 at a concrete 2xx response carrying `result.status = 403`. -/
theorem claim_C8_witness :
    handlePlaceOrderResponse
        { result := some { status := .num 403 }, error := none } =
      .error ("Order rejected by Polymarket: " ++
        placeOrderRejectMessage { status := .num 403 } 403) :=
  claim_C8_numeric_status_rejected
    { result := some { status := .num 403 }, error := none }
    { status := .num 403 } 403 rfl rfl rfl (by norm_num)

/-- For shift counts below 31, the JavaScript 32-bit shift agrees with the
mathematical power of two. -/
theorem jsShlOne_eq_pow (k : Nat) (h : k ≤ 30) : jsShlOne k = (2 : Int) ^ k := by
  have hk32 : k % 32 = k := Nat.mod_eq_of_lt (by omega)
  have hlt31 : (2 : Nat) ^ k < 2 ^ 31 :=
    Nat.pow_lt_pow_right (by norm_num) (by omega)
  have hlt32 : (2 : Nat) ^ k < 2 ^ 32 :=
    Nat.pow_lt_pow_right (by norm_num) (by omega)
  have hmod : (2 : Nat) ^ k % 2 ^ 32 = 2 ^ k := Nat.mod_eq_of_lt hlt32
  unfold jsShlOne toInt32
  rw [hk32, hmod]
  rw [if_pos hlt31]
  push_cast
  ring

/-- C10 counterexample: at `outcomeIndex = 32` the JavaScript 32-bit shift
wraps (`1 << 32 === 1`), so the encoded `indexSets` is `[1]`, not `[2^32]` as
the claim's universal statement requires. -/
theorem claim_C10_counterexample :
    (buildRedeemPositionsTx ⟨"0xcond", 32⟩).data.indexSets = [(1 : Int)] ∧
      (1 : Int) ≠ (2 : Int) ^ (32 : Nat) := by
  constructor
  · rfl
  · decide

/-- C10 amended: for every conditionId and every outcomeIndex up to 30 —
covering the documented binary domain (0 or 1) — `buildRedeemPositionsTx`
returns a transaction to the CTF contract with value 0 whose calldata encodes
`redeemPositions` with the USDC collateral token, a zero parentCollectionId,
the given conditionId, and `indexSets = [2 ^ outcomeIndex]`; at indices 31 and
beyond the JavaScript 32-bit shift wraps instead. -/
theorem claim_C10_redeem_tx (p : BuildRedeemTxParams) (h : p.outcomeIndex ≤ 30) :
    buildRedeemPositionsTx p =
      { toAddr := CTF_CONTRACT_ADDRESS
        data := { collateralToken := POLYGON_USDC_ADDRESS
                  parentCollectionId := 0
                  conditionId := p.conditionId
                  indexSets := [(2 : Int) ^ p.outcomeIndex] }
        value := 0 } := by
  unfold buildRedeemPositionsTx buildRedeemPositionsCalldata
  rw [jsShlOne_eq_pow p.outcomeIndex h]

/-- Witness for C10's amended statement at outcome index 1 (indexSets [2]). -/
theorem claim_C10_witness :
    buildRedeemPositionsTx ⟨"0xcondition", 1⟩ =
      { toAddr := CTF_CONTRACT_ADDRESS
        data := { collateralToken := POLYGON_USDC_ADDRESS
                  parentCollectionId := 0
                  conditionId := "0xcondition"
                  indexSets := [(2 : Int) ^ (1 : Nat)] }
        value := 0 } :=
  claim_C10_redeem_tx ⟨"0xcondition", 1⟩ (by norm_num)

/-- The needs-approval side of the classification pass keeps, in order,
exactly the contracts without sufficient allowance. -/
theorem splitApproval_fst (entries : List EscrowContractEntry) :
    (splitApproval entries).1 = entries.filter (fun e => !entryHasAllowance e) := by
  induction entries with
  | nil => rfl
  | cons e rest ih =>
      by_cases h : entryHasAllowance e
      · simp [splitApproval, h, ih]
      · simp [splitApproval, h, ih]

/-- The already-approved side of the classification pass lists, in order, the
names of exactly the contracts with sufficient allowance. -/
theorem splitApproval_snd (entries : List EscrowContractEntry) :
    (splitApproval entries).2 =
      (entries.filter (fun e => entryHasAllowance e)).map (fun e => e.name) := by
  induction entries with
  | nil => rfl
  | cons e rest ih =>
      by_cases h : entryHasAllowance e
      · simp [splitApproval, h, ih]
      · simp [splitApproval, h, ih]

/-- When every awaited receipt is successful, the approval loop approves each
contract in order and records one transaction per contract. -/
theorem approvalLoop_all_ok (l : List EscrowContractEntry)
    (h : ∀ e ∈ l, e.receiptStatus = 1) :
    approvalLoop l =
      (.ok (l.map (fun e => e.name), l.map (fun e => (e.name, e.txHash))),
       l.map (fun e => (e.name, e.txHash))) := by
  induction l with
  | nil => rfl
  | cons e rest ih =>
      have he : e.receiptStatus = 1 := h e (List.mem_cons_self ..)
      have hrest := ih (fun x hx => h x (List.mem_cons_of_mem _ hx))
      simp [approvalLoop, he, hrest]

/-- The approval loop stops at the first unsuccessful receipt: it throws
naming that contract, and the transactions sent are exactly those before the
failure plus the failing one — none after it. -/
theorem approvalLoop_fail_fast (pre : List EscrowContractEntry)
    (bad : EscrowContractEntry) (rest : List EscrowContractEntry)
    (hpre : ∀ e ∈ pre, e.receiptStatus = 1) (hbad : bad.receiptStatus ≠ 1) :
    approvalLoop (pre ++ bad :: rest) =
      (.error ("Approval transaction failed for " ++ bad.name ++ ": " ++ bad.txHash),
       pre.map (fun e => (e.name, e.txHash)) ++ [(bad.name, bad.txHash)]) := by
  induction pre with
  | nil => simp [approvalLoop, hbad]
  | cons e p ih =>
      have he : e.receiptStatus = 1 := hpre e (List.mem_cons_self ..)
      have ih' := ih (fun x hx => hpre x (List.mem_cons_of_mem _ hx))
      simp [approvalLoop, he, ih']

/-- C9: `approveEscrow` sends no approval transaction for contracts whose
allowance is already sufficient and lists them in `alreadyApproved`,
separately from the newly approved ones in `approved`; and on the first
approval whose receipt is unsuccessful it throws immediately, the sent
transactions being exactly the successful prefix plus the failing one. -/
theorem claim_C9_approve_escrow (entries : List EscrowContractEntry) :
    ((splitApproval entries).1 = entries.filter (fun e => !entryHasAllowance e) ∧
        (splitApproval entries).2 =
          (entries.filter (fun e => entryHasAllowance e)).map (fun e => e.name)) ∧
      ((∀ e ∈ (splitApproval entries).1, e.receiptStatus = 1) →
        approveEscrow entries =
          (.ok { approved := ((splitApproval entries).1).map (fun e => e.name)
                 alreadyApproved := (splitApproval entries).2
                 txHashes := ((splitApproval entries).1).map (fun e => (e.name, e.txHash)) },
           ((splitApproval entries).1).map (fun e => (e.name, e.txHash)))) ∧
      (∀ pre bad rest, (splitApproval entries).1 = pre ++ bad :: rest →
        (∀ e ∈ pre, e.receiptStatus = 1) → bad.receiptStatus ≠ 1 →
        approveEscrow entries =
          (.error ("Approval transaction failed for " ++ bad.name ++ ": " ++ bad.txHash),
           pre.map (fun e => (e.name, e.txHash)) ++ [(bad.name, bad.txHash)])) := by
  refine ⟨⟨splitApproval_fst entries, splitApproval_snd entries⟩, ?_, ?_⟩
  · intro h
    unfold approveEscrow
    rcases hne : (splitApproval entries).1 with _ | ⟨e, l⟩
    · simp [hne]
    · rw [hne] at h
      dsimp only
      rw [approvalLoop_all_ok _ h]
      simp
  · intro pre bad rest hsplit hpre hbad
    unfold approveEscrow
    rw [hsplit]
    dsimp only
    rw [approvalLoop_fail_fast pre bad rest hpre hbad]
    rcases pre with _ | ⟨e, p⟩ <;> simp

/-- Witness for C9 at concrete runs: one where the single insufficient
contract is approved successfully (the sufficient one being skipped and
reported separately), and one that fails fast on the second of three needed
approvals, leaving the third unattempted. -/
theorem claim_C9_witness :
    approveEscrow [⟨"Fee Escrow", 2 * 10 ^ 12, "", 1⟩, ⟨"CTF Exchange", 0, "0xhash1", 1⟩] =
        (.ok { approved := ["CTF Exchange"]
               alreadyApproved := ["Fee Escrow"]
               txHashes := [("CTF Exchange", "0xhash1")] },
         [("CTF Exchange", "0xhash1")]) ∧
      approveEscrow [⟨"Neg Risk Adapter", 0, "0xhashA", 1⟩, ⟨"CTF Exchange", 0, "0xhashB", 0⟩,
          ⟨"Neg Risk CTF Exchange", 0, "0xhashC", 1⟩] =
        (.error ("Approval transaction failed for " ++ "CTF Exchange" ++ ": " ++ "0xhashB"),
         [("Neg Risk Adapter", "0xhashA"), ("CTF Exchange", "0xhashB")]) :=
  ⟨(claim_C9_approve_escrow
        [⟨"Fee Escrow", 2 * 10 ^ 12, "", 1⟩, ⟨"CTF Exchange", 0, "0xhash1", 1⟩]).2.1
      (by decide),
    (claim_C9_approve_escrow
        [⟨"Neg Risk Adapter", 0, "0xhashA", 1⟩, ⟨"CTF Exchange", 0, "0xhashB", 0⟩,
          ⟨"Neg Risk CTF Exchange", 0, "0xhashC", 1⟩]).2.2
      [⟨"Neg Risk Adapter", 0, "0xhashA", 1⟩] ⟨"CTF Exchange", 0, "0xhashB", 0⟩
      [⟨"Neg Risk CTF Exchange", 0, "0xhashC", 1⟩] rfl (by decide) (by decide)⟩

end DomeSDK
